import Mathlib

/-!
Verification of the resilient-telemetry service.

The development shallowly embeds the two source files of the repository:

* `src/hq/main.py` — the FastAPI ingestion service with an in-process
  "chaos monkey" task toggling a shared health flag (namespace `Main`);
* `src/hq/chaos.py` — the process-level chaos controller that starts and
  kills the server subprocess in a loop (namespace `Chaos`).

Modelling conventions:

* SQLite datetimes and REAL values are only stored and compared by this
  program, never computed with, so timestamps are modelled by integers in
  timeline order and temperature values by integers carried opaquely.
* `random.randint(a, b)` is modelled by `randint a b r` where `r` is a draw
  from an external random source; for `a ≤ b` its image is exactly the
  inclusive range `[a, b]`, matching Python's semantics.
* Python dictionaries returned from handlers and `HTTPException` bodies are
  modelled by the `Main.RespBody` type together with the HTTP status code
  (FastAPI returns 200 for a plain dict return).
-/

/-- Model of Python's `random.randint(lo, hi)`: a uniformly drawn integer in
the inclusive range `[lo, hi]`, driven by an external draw `r`. -/
def randint (lo hi r : Nat) : Nat :=
  lo + r % (hi - lo + 1)

namespace Main

/-! ## Configuration constants of `src/hq/main.py` (lines 24–27) -/

def MIN_UP_TIME : Nat := 5
def MAX_UP_TIME : Nat := 10
def MIN_DOWN_TIME : Nat := 3
def MAX_DOWN_TIME : Nat := 7

/-! ## Request bodies and pydantic validation (`TelemetryData`, lines 102–106)

JSON scalar values are modelled by `Json`; JSON numbers are carried as
integers (the service never computes with them, so this loses nothing the
claims need). -/

inductive Json where
  | str (s : String)
  | num (n : Int)
  | bool (b : Bool)
  | null
deriving DecidableEq, Repr

def digitVal (c : Char) : Int :=
  (c.toNat : Int) - 48

/-- Parser for the fixed-width ISO-8601 form `YYYY-MM-DDTHH:MM:SS` accepted
by pydantic's `datetime` field, returning an order-preserving mixed-radix
integer encoding of the six components. -/
def parseIsoDatetime (s : String) : Option Int :=
  match s.data with
  | [y1, y2, y3, y4, '-', mo1, mo2, '-', d1, d2, 'T',
     h1, h2, ':', mi1, mi2, ':', se1, se2] =>
    if y1.isDigit && y2.isDigit && y3.isDigit && y4.isDigit &&
       mo1.isDigit && mo2.isDigit && d1.isDigit && d2.isDigit &&
       h1.isDigit && h2.isDigit && mi1.isDigit && mi2.isDigit &&
       se1.isDigit && se2.isDigit then
      let y := digitVal y1 * 1000 + digitVal y2 * 100 + digitVal y3 * 10 + digitVal y4
      let mo := digitVal mo1 * 10 + digitVal mo2
      let d := digitVal d1 * 10 + digitVal d2
      let h := digitVal h1 * 10 + digitVal h2
      let mi := digitVal mi1 * 10 + digitVal mi2
      let se := digitVal se1 * 10 + digitVal se2
      if 1 ≤ mo ∧ mo ≤ 12 ∧ 1 ≤ d ∧ d ≤ 31 ∧ h ≤ 23 ∧ mi ≤ 59 ∧ se ≤ 59 then
        some (((((y * 13 + mo) * 32 + d) * 24 + h) * 60 + mi) * 60 + se)
      else none
    else none
  | _ => none

/-- Pydantic `str` field: requires a JSON string; any string is accepted,
including the empty one (`agent_id: str` carries no length constraint). -/
def validate_str : Option Json → Option String
  | some (.str s) => some s
  | _ => none

/-- Pydantic `datetime` field: accepts a numeric epoch value or a parseable
ISO-8601 datetime string. -/
def validate_datetime : Option Json → Option Int
  | some (.num n) => some n
  | some (.str s) => parseIsoDatetime s
  | _ => none

/-- Pydantic `float` field: accepts a JSON number. -/
def validate_float : Option Json → Option Int
  | some (.num n) => some n
  | _ => none

/-- Pydantic `int` field: accepts a JSON integer. -/
def validate_int : Option Json → Option Int
  | some (.num n) => some n
  | _ => none

/-- The validated request model `TelemetryData` (main.py lines 102–106). -/
structure TelemetryData where
  agent_id : String
  timestamp : Int
  temperature : Int
  battery_level : Int
deriving DecidableEq, Repr

/-- A raw JSON request body for `POST /telemetry`: each expected key either
absent or bound to a JSON value. -/
structure RawTelemetry where
  agent_id : Option Json
  timestamp : Option Json
  temperature : Option Json
  battery_level : Option Json
deriving DecidableEq, Repr

/-- Pydantic validation of the request body against `TelemetryData`: every
field is required and type-checked; there are no value constraints. -/
def parseTelemetryData (r : RawTelemetry) : Option TelemetryData :=
  match validate_str r.agent_id, validate_datetime r.timestamp,
        validate_float r.temperature, validate_int r.battery_level with
  | some a, some t, some temp, some b => some ⟨a, t, temp, b⟩
  | _, _, _, _ => none

/-! ## Storage (`readings` table, main.py lines 59–72 and 130–137)

A row of `readings`; `id` is the AUTOINCREMENT key, `received_at` the
server-assigned insert time (`DEFAULT CURRENT_TIMESTAMP`). -/

structure Reading where
  id : Nat
  agent_id : String
  timestamp : Int
  temperature : Int
  battery_level : Int
  received_at : Int
deriving DecidableEq, Repr

/-- The `readings` table: rows in insertion order plus the next
AUTOINCREMENT id. -/
structure DB where
  rows : List Reading
  nextId : Nat
deriving DecidableEq, Repr

/-- A freshly created table (SQLite AUTOINCREMENT starts at 1). -/
def emptyDB : DB := ⟨[], 1⟩

/-- The `INSERT INTO readings (agent_id, timestamp, temperature,
battery_level) VALUES (?, ?, ?, ?)` statement of `receive_telemetry`
(main.py lines 130–137): appends one row, with server-assigned id and
`received_at` (`now`). -/
def insertReading (db : DB) (d : TelemetryData) (now : Int) : DB :=
  { rows := db.rows ++
      [⟨db.nextId, d.agent_id, d.timestamp, d.temperature, d.battery_level, now⟩],
    nextId := db.nextId + 1 }

/-- The `SELECT COUNT(*) FROM readings` query of `get_stats`
(main.py line 160). -/
def countReadings (db : DB) : Nat :=
  db.rows.length

/-- One comparison step of `ORDER BY timestamp DESC LIMIT 1`: keep the row
with the larger agent-supplied timestamp. Among equal timestamps SQLite's
choice is unspecified; the model keeps the earlier row, and no theorem below
depends on that tie-break. -/
def maxStep (acc : Option Reading) (r : Reading) : Option Reading :=
  match acc with
  | none => some r
  | some b => if b.timestamp < r.timestamp then some r else some b

/-- The `SELECT * FROM readings ORDER BY timestamp DESC LIMIT 1` query of
`get_stats` (main.py lines 164–167): the row with the maximal agent-supplied
timestamp, or `none` on an empty table. -/
def latestReading (db : DB) : Option Reading :=
  db.rows.foldl maxStep none

/-! ## HTTP responses of the ingestion endpoint -/

/-- Response bodies: a plain `status`/`message` dict returned by the handler,
a FastAPI `HTTPException` detail body, or FastAPI's field-level validation
error payload. -/
inductive RespBody where
  | statusMsg (status : String) (message : Option String)
  | httpDetail (detail : String)
  | validationErrors
deriving DecidableEq, Repr

structure Response where
  code : Nat
  body : RespBody
deriving DecidableEq, Repr

/-- The 503 raised by the chaos check (main.py lines 118–123). -/
def unavailableResponse : Response :=
  ⟨503, .httpDetail "Simulated Network Failure"⟩

/-- The success response (main.py line 142); FastAPI sends a dict return
with status code 200. -/
def savedResponse : Response :=
  ⟨200, .statusMsg "saved" none⟩

/-- The database-not-ready response (main.py line 127): a plain dict return,
so FastAPI sends it with status code 200. -/
def dbNotReadyResponse : Response :=
  ⟨200, .statusMsg "error" (some "Database not ready")⟩

/-- FastAPI's response when pydantic validation of the body fails. -/
def validationErrorResponse : Response :=
  ⟨422, .validationErrors⟩

/-- Body of `receive_telemetry` (main.py lines 112–142) after validation:
first the chaos check against the health flag, then the database-ready
check, then the insert. Returns the response and the new storage state. -/
def receive_telemetry (healthy : Bool) (db : Option DB) (d : TelemetryData)
    (now : Int) : Response × Option DB :=
  if !healthy then
    (unavailableResponse, db)
  else
    match db with
    | none => (dbNotReadyResponse, none)
    | some s => (savedResponse, some (insertReading s d now))

/-- The full `POST /telemetry` request path: pydantic validation of the raw
body, then `receive_telemetry`. -/
def handle_telemetry_request (healthy : Bool) (db : Option DB)
    (raw : RawTelemetry) (now : Int) : Response × Option DB :=
  match parseTelemetryData raw with
  | none => (validationErrorResponse, db)
  | some d => receive_telemetry healthy db d now

/-- Result of `get_stats` (main.py lines 151–178): either the
database-missing error string, or the count, latest row and health flag
passed to the template. -/
inductive StatsView where
  | dbError
  | stats (count : Nat) (latest : Option Reading) (online : Bool)
deriving DecidableEq, Repr

/-- The `GET /stats` handler (main.py lines 151–178). -/
def get_stats (db : Option DB) (healthy : Bool) : StatsView :=
  match db with
  | none => .dbError
  | some s => .stats (countReadings s) (latestReading s) healthy

/-! ## The in-process chaos monkey (`chaos_monkey_loop`, main.py lines 37–55)

Each iteration of the `while True` loop draws an up-duration, sets the flag
healthy, sleeps, draws a down-duration, sets the flag unhealthy, and sleeps.
The trace of one iteration is the two (flag value, sleep duration) events it
performs, in order. -/

structure MonkeyEvent where
  flag : Bool
  sleep : Nat
deriving DecidableEq, Repr

/-- One iteration of `chaos_monkey_loop`'s `while True` body, given the two
random draws of the iteration. -/
def chaos_monkey_iteration (rUp rDown : Nat) : List MonkeyEvent :=
  [⟨true, randint MIN_UP_TIME MAX_UP_TIME rUp⟩,
   ⟨false, randint MIN_DOWN_TIME MAX_DOWN_TIME rDown⟩]

/-- The event trace of the first `n` iterations of `chaos_monkey_loop`,
driven by the random source `rng` (draw `2*k` and `2*k+1` feed iteration
`k`). -/
def chaos_monkey_events (rng : Nat → Nat) : Nat → List MonkeyEvent
  | 0 => []
  | n + 1 => chaos_monkey_events rng n ++
      chaos_monkey_iteration (rng (2 * n)) (rng (2 * n + 1))

/-! ## Cooperative scheduling of the toggler task and its cancellation

`chaos_monkey_loop` runs on the single-threaded asyncio event loop; its only
suspension points are the two `asyncio.sleep` calls, and the code between
suspension points runs atomically. `chaos_task.cancel()` (main.py lines
91–93) is issued from the lifespan coroutine, which itself only runs while
the toggler is suspended at one of its sleeps, so cancellation is always
delivered at a sleep boundary and the task then takes no further steps. -/

inductive TaskStatus where
  | sleepingUp
  | sleepingDown
  | cancelled
deriving DecidableEq, Repr

/-- The toggler task's scheduling status together with the current value of
the shared `is_network_healthy` flag. -/
structure TogglerState where
  status : TaskStatus
  flag : Bool
deriving DecidableEq, Repr

/-- Scheduler actions on the toggler: a sleep elapses and the task runs to
its next suspension point, or the lifespan shutdown cancels the task. -/
inductive SchedAction where
  | wake
  | cancel
deriving DecidableEq, Repr

/-- One scheduler step. Waking from the up-phase sleep runs the loop to the
down-phase sleep (setting the flag unhealthy on the way) and vice versa; a
cancelled task never runs again and never touches the flag. -/
def schedStep (s : TogglerState) : SchedAction → TogglerState
  | .cancel => { s with status := .cancelled }
  | .wake =>
    match s.status with
    | .cancelled => s
    | .sleepingUp => ⟨.sleepingDown, false⟩
    | .sleepingDown => ⟨.sleepingUp, true⟩

def runSched (s : TogglerState) (acts : List SchedAction) : TogglerState :=
  acts.foldl schedStep s

/-- State after task creation and the first run to a suspension point: the
loop has set the flag healthy and suspended at the up sleep. -/
def togglerStart : TogglerState := ⟨.sleepingUp, true⟩

end Main

namespace Chaos

/-! ## Configuration constants of `src/hq/chaos.py` (lines 10–13) -/

def MIN_UP_TIME : Nat := 5
def MAX_UP_TIME : Nat := 10
def MIN_DOWN_TIME : Nat := 3
def MAX_DOWN_TIME : Nat := 8

/-- The two sleep durations drawn in one cycle of `main`'s `while True` loop
(chaos.py lines 51 and 59). -/
def cycle_durations (rUp rDown : Nat) : Nat × Nat :=
  (randint MIN_UP_TIME MAX_UP_TIME rUp,
   randint MIN_DOWN_TIME MAX_DOWN_TIME rDown)

/-- What happens during one cycle of the controller loop:
* `normal` — `start_server`, both sleeps and `stop_server` complete;
* `stopRaises` — `stop_server` raises an exception that is not a
  `KeyboardInterrupt` (e.g. `os.killpg` fails on the process group);
* `interrupt` — a `KeyboardInterrupt` is delivered during the cycle. -/
inductive CycleEvent where
  | normal
  | stopRaises
  | interrupt
deriving DecidableEq, Repr

/-- How a run of the controller loop ended. -/
inductive RunResult where
  | interrupted
  | crashed
deriving DecidableEq, Repr

/-- The `while True` loop of `main` (chaos.py lines 45–66) consuming a list
of cycle events. The loop body sits in a `try` whose only handler catches
`KeyboardInterrupt` (stopping the controller after stopping a running
server); any other exception propagates out of `main` uncaught and the run
ends as `crashed`. `none` means the loop is still cycling after the listed
events. -/
def runCycles : List CycleEvent → Option RunResult
  | [] => none
  | .normal :: rest => runCycles rest
  | .stopRaises :: _ => some .crashed
  | .interrupt :: _ => some .interrupted

end Chaos

/-! ## Helper lemmas -/

/-- For `lo ≤ hi`, `randint` always lands in the inclusive range
`[lo, hi]`, as Python's `random.randint` does. -/
theorem randint_le (lo hi r : Nat) (h : lo ≤ hi) :
    lo ≤ randint lo hi r ∧ randint lo hi r ≤ hi := by
  unfold randint
  have hm : r % (hi - lo + 1) < hi - lo + 1 := Nat.mod_lt _ (by omega)
  omega

/-- Folding `maxStep` from a present accumulator yields a row whose
timestamp is at least the accumulator's. -/
theorem foldl_maxStep_some (l : List Main.Reading) (b : Main.Reading) :
    ∃ c, l.foldl Main.maxStep (some b) = some c ∧
      b.timestamp ≤ c.timestamp := by
  induction l generalizing b with
  | nil => exact ⟨b, rfl, le_refl _⟩
  | cons a t ih =>
    simp only [List.foldl_cons]
    by_cases h : b.timestamp < a.timestamp
    · obtain ⟨c, hc, hac⟩ := ih a
      refine ⟨c, ?_, by omega⟩
      simpa [Main.maxStep, h] using hc
    · obtain ⟨c, hc, hbc⟩ := ih b
      refine ⟨c, ?_, hbc⟩
      simpa [Main.maxStep, h] using hc

/-- The `ORDER BY timestamp DESC LIMIT 1` fold returns a row whose
timestamp bounds every member of the list. -/
theorem foldl_maxStep_ub (l : List Main.Reading) :
    ∀ (acc : Option Main.Reading) (r : Main.Reading), r ∈ l →
      ∃ c, l.foldl Main.maxStep acc = some c ∧
        r.timestamp ≤ c.timestamp := by
  induction l with
  | nil => intro acc r hr; cases hr
  | cons a t ih =>
    intro acc r hr
    simp only [List.foldl_cons]
    rcases List.mem_cons.mp hr with h | h
    · subst h
      have hstep : ∃ b, Main.maxStep acc r = some b ∧
          r.timestamp ≤ b.timestamp := by
        cases acc with
        | none => exact ⟨r, rfl, le_refl _⟩
        | some b0 =>
          by_cases h2 : b0.timestamp < r.timestamp
          · exact ⟨r, by simp [Main.maxStep, h2], le_refl _⟩
          · exact ⟨b0, by simp [Main.maxStep, h2], by omega⟩
      obtain ⟨b, hb, hrb⟩ := hstep
      rw [hb]
      obtain ⟨c, hc, hbc⟩ := foldl_maxStep_some t b
      exact ⟨c, hc, by omega⟩
    · exact ih (Main.maxStep acc a) r h

/-- A row produced by the `maxStep` fold is the accumulator or a list
member. -/
theorem foldl_maxStep_mem (l : List Main.Reading) :
    ∀ (acc : Option Main.Reading) (c : Main.Reading),
      l.foldl Main.maxStep acc = some c → acc = some c ∨ c ∈ l := by
  induction l with
  | nil => intro acc c h; exact Or.inl h
  | cons a t ih =>
    intro acc c h
    simp only [List.foldl_cons] at h
    rcases ih (Main.maxStep acc a) c h with h2 | h2
    · cases acc with
      | none =>
        simp only [Main.maxStep] at h2
        exact Or.inr (List.mem_cons.mpr (Or.inl (Option.some.inj h2).symm))
      | some b =>
        by_cases hba : b.timestamp < a.timestamp
        · simp only [Main.maxStep, if_pos hba] at h2
          exact Or.inr (List.mem_cons.mpr (Or.inl (Option.some.inj h2).symm))
        · simp only [Main.maxStep, if_neg hba] at h2
          exact Or.inl h2
    · exact Or.inr (List.mem_cons_of_mem a h2)

/-! ## Concrete inputs used by witnesses and counterexamples -/

/-- A well-formed request body. -/
def rawOk : Main.RawTelemetry :=
  ⟨some (.str "agent-7"), some (.num 100), some (.num 21), some (.num 87)⟩

/-- The record `rawOk` validates to. -/
def dataOk : Main.TelemetryData := ⟨"agent-7", 100, 21, 87⟩

/-! ## Claim C1 -/

/-- C1: while the health flag is unhealthy, every ingestion request whose
body is well-formed is rejected with the 503 service-unavailable signal and
the storage state is returned untouched — for every storage state, including
an uninitialized one, so the availability gate answers before and
independently of any storage interaction and the stored record count is
unchanged. -/
theorem unhealthy_request_rejected_no_write (db : Option Main.DB)
    (raw : Main.RawTelemetry) (d : Main.TelemetryData) (now : Int)
    (h : Main.parseTelemetryData raw = some d) :
    Main.handle_telemetry_request false db raw now =
      (Main.unavailableResponse, db) ∧
    Main.unavailableResponse.code = 503 := by
  unfold Main.handle_telemetry_request
  rw [h]
  exact ⟨rfl, rfl⟩

theorem unhealthy_request_rejected_no_write_witness :
    Main.parseTelemetryData rawOk = some dataOk ∧
    (Main.handle_telemetry_request false (some Main.emptyDB) rawOk 5 =
      (Main.unavailableResponse, some Main.emptyDB) ∧
     Main.unavailableResponse.code = 503) :=
  ⟨rfl, unhealthy_request_rejected_no_write (some Main.emptyDB) rawOk dataOk 5 rfl⟩

/-! ## Claim C2 -/

/-- C2: while the health flag is healthy and the storage connection is
initialized, every well-formed ingestion request succeeds with status code
200 and the body with status field `saved`, and storage grows by exactly the
one appended row. -/
theorem healthy_request_saved_count_incremented (s : Main.DB)
    (raw : Main.RawTelemetry) (d : Main.TelemetryData) (now : Int)
    (h : Main.parseTelemetryData raw = some d) :
    Main.handle_telemetry_request true (some s) raw now =
      (Main.savedResponse, some (Main.insertReading s d now)) ∧
    Main.savedResponse = ⟨200, .statusMsg "saved" none⟩ ∧
    Main.countReadings (Main.insertReading s d now) =
      Main.countReadings s + 1 := by
  refine ⟨?_, rfl, ?_⟩
  · unfold Main.handle_telemetry_request
    rw [h]
    rfl
  · simp [Main.countReadings, Main.insertReading]

theorem healthy_request_saved_count_incremented_witness :
    Main.parseTelemetryData rawOk = some dataOk ∧
    (Main.handle_telemetry_request true (some Main.emptyDB) rawOk 5 =
      (Main.savedResponse, some (Main.insertReading Main.emptyDB dataOk 5)) ∧
     Main.savedResponse = ⟨200, .statusMsg "saved" none⟩ ∧
     Main.countReadings (Main.insertReading Main.emptyDB dataOk 5) =
       Main.countReadings Main.emptyDB + 1) :=
  ⟨rfl, healthy_request_saved_count_incremented Main.emptyDB rawOk dataOk 5 rfl⟩

/-! ## Claim C6 -/

/-- C6: while the health flag is healthy but the storage connection is not
yet initialized, a well-formed ingestion request gets the
database-not-ready response, which differs from the availability-gated 503
rejection and whose body differs from the success body, and no record is
stored. -/
theorem db_not_ready_distinct_outcome (raw : Main.RawTelemetry)
    (d : Main.TelemetryData) (now : Int)
    (h : Main.parseTelemetryData raw = some d) :
    Main.handle_telemetry_request true none raw now =
      (Main.dbNotReadyResponse, none) ∧
    Main.dbNotReadyResponse ≠ Main.unavailableResponse ∧
    Main.dbNotReadyResponse.body ≠ Main.savedResponse.body := by
  refine ⟨?_, by decide, by decide⟩
  unfold Main.handle_telemetry_request
  rw [h]
  rfl

theorem db_not_ready_distinct_outcome_witness :
    Main.parseTelemetryData rawOk = some dataOk ∧
    (Main.handle_telemetry_request true none rawOk 5 =
      (Main.dbNotReadyResponse, none) ∧
     Main.dbNotReadyResponse ≠ Main.unavailableResponse ∧
     Main.dbNotReadyResponse.body ≠ Main.savedResponse.body) :=
  ⟨rfl, db_not_ready_distinct_outcome rawOk dataOk 5 rfl⟩

/-! ## Claim C9 -/

/-- A body identical to `rawOk` except that `agent_id` is the empty
string. -/
def rawEmptyAgent : Main.RawTelemetry :=
  ⟨some (.str ""), some (.num 0), some (.num 20), some (.num 99)⟩

/-- C9 counterexample: a record whose agent_id is the empty string is NOT
rejected as malformed — `agent_id: str` carries no non-emptiness constraint,
so the body validates, and (flag healthy, storage ready) the record is
saved. -/
theorem empty_agent_id_not_rejected :
    Main.parseTelemetryData rawEmptyAgent = some ⟨"", 0, 20, 99⟩ ∧
    Main.handle_telemetry_request true (some Main.emptyDB) rawEmptyAgent 3 =
      (Main.savedResponse,
       some (Main.insertReading Main.emptyDB ⟨"", 0, 20, 99⟩ 3)) :=
  ⟨rfl, rfl⟩

/-- C9 amended: agent_id is required and must be a JSON string, but its
emptiness is not checked: every body whose agent_id is the empty string and
whose remaining fields are well-typed passes validation with agent_id `""`
and flows through the availability and persistence path like any other
record. -/
theorem empty_agent_id_validates (jt jtemp jb : Option Main.Json)
    (ts temp bat : Int) (s : Main.DB) (now : Int)
    (h1 : Main.validate_datetime jt = some ts)
    (h2 : Main.validate_float jtemp = some temp)
    (h3 : Main.validate_int jb = some bat) :
    Main.parseTelemetryData ⟨some (.str ""), jt, jtemp, jb⟩ =
      some ⟨"", ts, temp, bat⟩ ∧
    Main.handle_telemetry_request true (some s) ⟨some (.str ""), jt, jtemp, jb⟩ now =
      (Main.savedResponse, some (Main.insertReading s ⟨"", ts, temp, bat⟩ now)) := by
  have hp : Main.parseTelemetryData ⟨some (.str ""), jt, jtemp, jb⟩ =
      some ⟨"", ts, temp, bat⟩ := by
    simp [Main.parseTelemetryData, Main.validate_str, h1, h2, h3]
  refine ⟨hp, ?_⟩
  unfold Main.handle_telemetry_request
  rw [hp]
  rfl

theorem empty_agent_id_validates_witness :
    Main.validate_datetime (some (.num 0)) = some 0 ∧
    Main.validate_float (some (.num 20)) = some 20 ∧
    Main.validate_int (some (.num 99)) = some 99 ∧
    (Main.parseTelemetryData ⟨some (.str ""), some (.num 0), some (.num 20), some (.num 99)⟩ =
       some ⟨"", 0, 20, 99⟩ ∧
     Main.handle_telemetry_request true (some Main.emptyDB)
         ⟨some (.str ""), some (.num 0), some (.num 20), some (.num 99)⟩ 3 =
       (Main.savedResponse,
        some (Main.insertReading Main.emptyDB ⟨"", 0, 20, 99⟩ 3))) :=
  ⟨rfl, rfl, rfl,
   empty_agent_id_validates (some (.num 0)) (some (.num 20)) (some (.num 99))
     0 20 99 Main.emptyDB 3 rfl rfl rfl⟩

/-! ## Claim C5 -/

/-- Storage holding one row with agent-supplied timestamp 5. -/
def dbHigh : Main.DB := Main.insertReading Main.emptyDB ⟨"alpha", 5, 20, 80⟩ 100

/-- A record with a smaller agent-supplied timestamp than the stored row. -/
def recLow : Main.TelemetryData := ⟨"beta", 3, 21, 70⟩

/-- C5 counterexample: a record accepted by the ingestion endpoint is not
always returned by the immediately subsequent latest query — with a row of
timestamp 5 already stored, the accepted record `recLow` (agent `beta`,
timestamp 3) is saved, yet the latest query still answers the `alpha` row,
whose field values differ from the accepted record's. -/
theorem roundtrip_fails_on_older_timestamp :
    Main.receive_telemetry true (some dbHigh) recLow 101 =
      (Main.savedResponse, some (Main.insertReading dbHigh recLow 101)) ∧
    (Main.latestReading (Main.insertReading dbHigh recLow 101)).map
        Main.Reading.agent_id = some "alpha" ∧
    recLow.agent_id = "beta" ∧
    ("alpha" : String) ≠ "beta" := by
  refine ⟨rfl, ?_, rfl, by decide⟩
  rfl

/-- C5 amended: the round trip holds whenever the accepted record's
agent-supplied timestamp is strictly greater than that of every stored row
(in particular on empty storage): the stats surface then reports the
incremented count and a latest row carrying exactly the inserted agent_id,
timestamp, temperature and battery_level. -/
theorem roundtrip_holds_for_newest_timestamp (s : Main.DB)
    (d : Main.TelemetryData) (now : Int) (online : Bool)
    (h : ∀ r ∈ s.rows, r.timestamp < d.timestamp) :
    Main.get_stats (some (Main.insertReading s d now)) online =
      .stats (Main.countReadings s + 1)
        (some ⟨s.nextId, d.agent_id, d.timestamp, d.temperature,
               d.battery_level, now⟩) online := by
  have hx : Main.latestReading (Main.insertReading s d now) =
      some ⟨s.nextId, d.agent_id, d.timestamp, d.temperature,
            d.battery_level, now⟩ := by
    unfold Main.latestReading Main.insertReading
    rw [List.foldl_append]
    cases hacc : s.rows.foldl Main.maxStep none with
    | none => rfl
    | some b =>
      have hb : b ∈ s.rows := by
        rcases foldl_maxStep_mem s.rows none b hacc with h2 | h2
        · cases h2
        · exact h2
      have hlt : b.timestamp < d.timestamp := h b hb
      simp [Main.maxStep, hlt]
  have hc : Main.countReadings (Main.insertReading s d now) =
      Main.countReadings s + 1 := by
    simp [Main.countReadings, Main.insertReading]
  simp only [Main.get_stats]
  rw [hx, hc]

theorem roundtrip_holds_for_newest_timestamp_witness :
    (∀ r ∈ dbHigh.rows, r.timestamp < (9 : Int)) ∧
    Main.get_stats
        (some (Main.insertReading dbHigh ⟨"gamma", 9, 1, 2⟩ 102)) true =
      .stats (Main.countReadings dbHigh + 1)
        (some ⟨dbHigh.nextId, "gamma", 9, 1, 2, 102⟩) true :=
  ⟨by decide, roundtrip_holds_for_newest_timestamp dbHigh ⟨"gamma", 9, 1, 2⟩
    102 true (by decide)⟩

/-! ## Claim C10 -/

/-- C10: the latest row of the stats surface is determined by the maximal
agent-supplied timestamp, not by insertion recency: inserting a record whose
timestamp is below that of some stored row leaves the latest query's answer
unchanged, and that answer's timestamp exceeds the inserted one, so the
pre-existing maximal row is still returned. -/
theorem latest_is_max_timestamp_not_insertion_order (s : Main.DB)
    (d : Main.TelemetryData) (now : Int) (r : Main.Reading)
    (hr : r ∈ s.rows) (hlt : d.timestamp < r.timestamp) :
    ∃ b, Main.latestReading s = some b ∧
      Main.latestReading (Main.insertReading s d now) = some b ∧
      d.timestamp < b.timestamp := by
  obtain ⟨c, hc, hrc⟩ := foldl_maxStep_ub s.rows none r hr
  have h1 : Main.latestReading s = some c := hc
  have hnc : ¬ c.timestamp < d.timestamp := by omega
  refine ⟨c, h1, ?_, by omega⟩
  unfold Main.latestReading Main.insertReading
  rw [List.foldl_append, hc]
  simp [Main.maxStep, hnc]

theorem latest_is_max_timestamp_not_insertion_order_witness :
    (⟨1, "alpha", 5, 20, 80, 100⟩ : Main.Reading) ∈ dbHigh.rows ∧
    recLow.timestamp < (5 : Int) ∧
    (∃ b, Main.latestReading dbHigh = some b ∧
      Main.latestReading (Main.insertReading dbHigh recLow 101) = some b ∧
      recLow.timestamp < b.timestamp) :=
  ⟨by decide, by decide,
   latest_is_max_timestamp_not_insertion_order dbHigh recLow 101
     ⟨1, "alpha", 5, 20, 80, 100⟩ (by decide) (by decide)⟩

/-! ## Claim C3 -/

/-- The event trace of `n` loop iterations has `2 * n` events. -/
theorem chaos_monkey_events_length (rng : Nat → Nat) (n : Nat) :
    (Main.chaos_monkey_events rng n).length = 2 * n := by
  induction n with
  | zero => rfl
  | succ k ih =>
    simp [Main.chaos_monkey_events, Main.chaos_monkey_iteration, ih]
    omega

/-- The `i`-th flag write of the loop is healthy exactly when `i` is even:
each iteration first sets the flag healthy and later unhealthy. -/
theorem chaos_monkey_events_flag (rng : Nat → Nat) (n : Nat) :
    ∀ i, i < 2 * n →
      ((Main.chaos_monkey_events rng n)[i]?).map Main.MonkeyEvent.flag =
        some (decide (i % 2 = 0)) := by
  induction n with
  | zero => intro i hi; omega
  | succ k ih =>
    intro i hi
    have hlen : (Main.chaos_monkey_events rng k).length = 2 * k :=
      chaos_monkey_events_length rng k
    have hsplit : Main.chaos_monkey_events rng (k + 1) =
        Main.chaos_monkey_events rng k ++
          Main.chaos_monkey_iteration (rng (2 * k)) (rng (2 * k + 1)) := rfl
    rw [hsplit]
    by_cases h : i < 2 * k
    · rw [List.getElem?_append_left (by omega)]
      exact ih i h
    · rw [List.getElem?_append_right (by omega), hlen]
      rcases (by omega : i = 2 * k ∨ i = 2 * k + 1) with h2 | h2
      · subst h2
        have hz : 2 * k - 2 * k = 0 := by omega
        have hm : 2 * k % 2 = 0 := by omega
        simp [Main.chaos_monkey_iteration, hz, hm]
      · subst h2
        have hz : 2 * k + 1 - 2 * k = 1 := by omega
        have hm : ¬ (2 * k + 1) % 2 = 0 := by omega
        simp [Main.chaos_monkey_iteration, hz, hm]

/-- C3: on every iteration the in-process controller loop first sets the
flag healthy and sleeps, then sets it unhealthy and sleeps, indefinitely:
the trace of `n` iterations consists of exactly `2 * n` flag-write events,
the `i`-th writes healthy exactly when `i` is even, and consecutive events
carry strictly alternating flag values. -/
theorem chaos_monkey_strictly_alternates (rng : Nat → Nat) (n : Nat) :
    (Main.chaos_monkey_events rng n).length = 2 * n ∧
    (∀ i, i < 2 * n →
      ((Main.chaos_monkey_events rng n)[i]?).map Main.MonkeyEvent.flag =
        some (decide (i % 2 = 0))) ∧
    (∀ i, i + 1 < 2 * n →
      ((Main.chaos_monkey_events rng n)[i]?).map Main.MonkeyEvent.flag ≠
      ((Main.chaos_monkey_events rng n)[i + 1]?).map Main.MonkeyEvent.flag) := by
  refine ⟨chaos_monkey_events_length rng n, chaos_monkey_events_flag rng n, ?_⟩
  intro i hi
  rw [chaos_monkey_events_flag rng n i (by omega),
      chaos_monkey_events_flag rng n (i + 1) (by omega)]
  intro hcontra
  have heq := Option.some.inj hcontra
  rcases Nat.mod_two_eq_zero_or_one i with h | h
  · have h1 : ¬ (i + 1) % 2 = 0 := by omega
    simp [h, h1] at heq
  · have h0 : ¬ i % 2 = 0 := by omega
    have h1 : (i + 1) % 2 = 0 := by omega
    simp [h0, h1] at heq

theorem chaos_monkey_strictly_alternates_witness :
    (0 : Nat) + 1 < 2 * 1 ∧
    ((Main.chaos_monkey_events (fun _ => 0) 1)[0]?).map Main.MonkeyEvent.flag ≠
    ((Main.chaos_monkey_events (fun _ => 0) 1)[0 + 1]?).map Main.MonkeyEvent.flag :=
  ⟨by decide,
   (chaos_monkey_strictly_alternates (fun _ => 0) 1).2.2 0 (by decide)⟩

/-! ## Claim C8 -/

/-- C8: in every cycle of either controller variant each drawn duration lies
in its inclusive configured range — up-durations in
`[MIN_UP_TIME, MAX_UP_TIME]` and down-durations in
`[MIN_DOWN_TIME, MAX_DOWN_TIME]` — with each variant reading its own two
independently configured ranges (`main.py` uses 5–10 and 3–7, `chaos.py`
5–10 and 3–8). -/
theorem durations_within_inclusive_ranges (rng : Nat → Nat)
    (n rUp rDown : Nat) :
    (∀ e ∈ Main.chaos_monkey_events rng n,
      (e.flag = true →
        Main.MIN_UP_TIME ≤ e.sleep ∧ e.sleep ≤ Main.MAX_UP_TIME) ∧
      (e.flag = false →
        Main.MIN_DOWN_TIME ≤ e.sleep ∧ e.sleep ≤ Main.MAX_DOWN_TIME)) ∧
    (Chaos.MIN_UP_TIME ≤ (Chaos.cycle_durations rUp rDown).1 ∧
      (Chaos.cycle_durations rUp rDown).1 ≤ Chaos.MAX_UP_TIME) ∧
    (Chaos.MIN_DOWN_TIME ≤ (Chaos.cycle_durations rUp rDown).2 ∧
      (Chaos.cycle_durations rUp rDown).2 ≤ Chaos.MAX_DOWN_TIME) := by
  refine ⟨?_, randint_le _ _ _ (by decide), randint_le _ _ _ (by decide)⟩
  induction n with
  | zero => intro e he; cases he
  | succ k ih =>
    intro e he
    rcases List.mem_append.mp he with h | h
    · exact ih e h
    · simp only [Main.chaos_monkey_iteration, List.mem_cons,
        List.mem_singleton, List.not_mem_nil, or_false] at h
      rcases h with h | h
      · subst h
        refine ⟨fun _ => randint_le _ _ _ (by decide), fun hf => ?_⟩
        cases hf
      · subst h
        refine ⟨fun ht => ?_, fun _ => randint_le _ _ _ (by decide)⟩
        cases ht

theorem durations_within_inclusive_ranges_witness :
    (⟨true, randint Main.MIN_UP_TIME Main.MAX_UP_TIME 0⟩ : Main.MonkeyEvent) ∈
      Main.chaos_monkey_events (fun _ => 0) 1 ∧
    (Main.MIN_UP_TIME ≤
        (⟨true, randint Main.MIN_UP_TIME Main.MAX_UP_TIME 0⟩ :
          Main.MonkeyEvent).sleep ∧
      (⟨true, randint Main.MIN_UP_TIME Main.MAX_UP_TIME 0⟩ :
          Main.MonkeyEvent).sleep ≤ Main.MAX_UP_TIME) :=
  ⟨by decide,
   ((durations_within_inclusive_ranges (fun _ => 0) 1 0 0).1
     ⟨true, randint Main.MIN_UP_TIME Main.MAX_UP_TIME 0⟩ (by decide)).1 rfl⟩

/-! ## Claim C4 -/

/-- C4 counterexample: an error raised while terminating the child process
group is not survived by the process-level controller — after a
`stopRaises` cycle the run has already ended as `crashed` (the pending next
cycle is never executed), whereas after error-free cycles the loop is still
cycling. -/
theorem controller_error_not_survived :
    Chaos.runCycles [Chaos.CycleEvent.stopRaises, Chaos.CycleEvent.normal] =
      some Chaos.RunResult.crashed ∧
    Chaos.runCycles [Chaos.CycleEvent.normal, Chaos.CycleEvent.normal] =
      none :=
  ⟨rfl, rfl⟩

/-- C4 amended: the controller's `try` handles only `KeyboardInterrupt`;
any other error raised inside a cycle — in particular a failure while
terminating the child process group — propagates uncaught and permanently
stops the up/down cycling, while a `KeyboardInterrupt` stops it cleanly and
error-free cycles keep it running indefinitely. -/
theorem controller_error_stops_cycling (n : Nat)
    (rest : List Chaos.CycleEvent) :
    Chaos.runCycles (List.replicate n Chaos.CycleEvent.normal) = none ∧
    Chaos.runCycles (List.replicate n Chaos.CycleEvent.normal ++
        Chaos.CycleEvent.stopRaises :: rest) =
      some Chaos.RunResult.crashed ∧
    Chaos.runCycles (List.replicate n Chaos.CycleEvent.normal ++
        Chaos.CycleEvent.interrupt :: rest) =
      some Chaos.RunResult.interrupted := by
  induction n with
  | zero => exact ⟨rfl, rfl, rfl⟩
  | succ k ih => simpa [List.replicate_succ, Chaos.runCycles] using ih

/-! ## Claim C7 -/

/-- A cancelled toggler task never runs again: no scheduler activity changes
its state or the health flag. -/
theorem runSched_cancelled (f : Bool) (acts : List Main.SchedAction) :
    Main.runSched ⟨.cancelled, f⟩ acts = ⟨.cancelled, f⟩ := by
  induction acts with
  | nil => rfl
  | cons a t ih =>
    cases a with
    | wake => simpa [Main.runSched, Main.schedStep] using ih
    | cancel => simpa [Main.runSched, Main.schedStep] using ih

/-- C7: cancelling the in-process toggler (from the lifespan shutdown)
freezes the health flag at exactly the value it had at cancellation and
issues no further toggles, whatever scheduler activity follows. The model's
only suspended statuses are the two sleep suspension points, so cancellation
is delivered at a sleep boundary and never between a flag write and its
completion (the code between sleeps runs atomically on the single-threaded
event loop). -/
theorem cancelled_toggler_freezes_flag (s : Main.TogglerState)
    (acts : List Main.SchedAction) :
    Main.runSched (Main.schedStep s .cancel) acts = ⟨.cancelled, s.flag⟩ := by
  have h : Main.schedStep s .cancel = ⟨.cancelled, s.flag⟩ := rfl
  rw [h]
  exact runSched_cancelled s.flag acts
